import Mathlib

/-!
Shallow embedding of `src/packages/base/src/SpineDebugRenderer.ts`
(class `SpineDebugRenderer`, the PixiJS-based debug renderer of the
spine runtime).

Modelling conventions:

* JS `number` values that carry geometry are modelled as `ℚ`.  The module
  only adds, subtracts, multiplies, divides and squares coordinates, except
  for `Math.sqrt` / `Math.acos` in `drawBonesFunc`, which are discussed at
  that definition.
* A Pixi `Graphics` object is modelled as an id (object identity) plus the
  list of drawing commands issued on it since the last `clear()`.
* A Pixi `Container` used as the bone container is modelled as its id plus
  its list of children.
* `Map<SpineBase, DebugDisplayObjects>` is modelled as an association list
  keyed by the spine object identity (a `ℕ`), with JS `Map` semantics:
  `set` overwrites an existing key in place, otherwise appends.
* `console.warn` is modelled by appending a tag to a warning log.
* A thrown JS exception is modelled as `Option JsErr` in the result:
  `some e` means the call threw `e` after performing the state changes
  already made.
* External collaborators (the skeleton runtime and the scene graph) are
  modelled per the spec, section 3: the pose snapshot is read-only data
  carried by the spine object.
-/

namespace SpineDebug

/-- Drawing commands recorded on a Pixi `Graphics` object.  `lineStyle 0 0 1`
stands for the one-argument JS call `lineStyle(0)` (width 0, default color
and alpha). -/
inductive Cmd where
  | lineStyle (width : ℚ) (color : ℕ) (alpha : ℚ)
  | moveTo (x y : ℚ)
  | lineTo (x y : ℚ)
  | bezierCurveTo (cx1 cy1 cx2 cy2 x y : ℚ)
  | drawPoly (pts : List ℚ)
  | drawRect (x y w h : ℚ)
  | drawCircle (x y r : ℚ)
  | beginFill (color : ℕ) (alpha : ℚ)
  | endFill
  deriving DecidableEq, Repr

/-- Style-only commands (they produce no geometry on screen by themselves). -/
def Cmd.isStyle : Cmd → Bool
  | .lineStyle _ _ _ => true
  | .beginFill _ _ => true
  | .endFill => true
  | _ => false

/-- The geometry commands of a trace: everything except pure style calls. -/
def geomCmds (l : List Cmd) : List Cmd :=
  l.filter fun c => !c.isStyle

/-- A Pixi `Graphics` object: identity plus recorded command trace. -/
structure Graphics where
  id : ℕ
  cmds : List Cmd
  deriving DecidableEq, Repr

/-- A child `Graphics` added to the bones container by `drawBonesFunc`
(the per-bone `gp`).  Its position (`gp.x`, `gp.y`) is the bone start point
and `c2` is the squared segment length `a2 + b2` from the source.  The
triangle path, pivot, circle and rotation set on `gp` are functions of
`Math.sqrt(c2)` and `Math.acos` and are not recorded; no claim concerns
them, only the creation of the child and its placement. -/
structure BoneGp where
  id : ℕ
  x : ℚ
  y : ℚ
  c2 : ℚ
  deriving DecidableEq, Repr

/-- The `DebugDisplayObjects` bundle created by `registerSpine`: one parent
container, one bones container (with its children), and ten `Graphics`
surfaces. -/
structure DebugDisplayObjects where
  parentDebugContainerId : ℕ
  bonesId : ℕ
  bonesChildren : List BoneGp
  skeletonXY : Graphics
  regionAttachmentsShape : Graphics
  meshTrianglesLine : Graphics
  meshHullLine : Graphics
  clippingPolygon : Graphics
  boundingBoxesRect : Graphics
  boundingBoxesCircle : Graphics
  boundingBoxesPolygon : Graphics
  pathsCurve : Graphics
  pathsLine : Graphics
  deriving DecidableEq, Repr

/-- Bone world matrix; the module reads `a`, `b`, `tx`, `ty` only
(fields `c`, `d` of the Pixi matrix are never accessed). -/
structure BoneMatrix where
  a : ℚ
  b : ℚ
  tx : ℚ
  ty : ℚ
  deriving DecidableEq, Repr

/-- Bone setup data; `hasParent` models the `bone.data.parent === null`
check (only nullness of the parent is ever read). -/
structure BoneData where
  name : String
  hasParent : Bool
  length : ℚ
  deriving DecidableEq, Repr

structure Bone where
  data : BoneData
  matrix : BoneMatrix
  active : Bool
  deriving DecidableEq, Repr

/-- Modelled from the spec: slot attachments (region/mesh/clipping/path
variants), "each carrying world-space vertex data recomputed per frame.
Read-only from this module's perspective."  The implementations of
`computeWorldVertices` / `updateOffset` live in the runtime packages (not
under `src/`), so each attachment carries the world vertices those calls
produce, and the calls are modelled as pure reads of that data. -/
inductive Attachment where
  | region (world : List ℚ)
  | mesh (worldVerticesLength : ℕ) (triangles : List ℕ) (hullLength : ℕ) (world : List ℚ)
  | clipping (worldVerticesLength : ℕ) (world : List ℚ)
  | path (closed : Bool) (worldVerticesLength : ℕ) (world : List ℚ)
  | boundingBox
  deriving DecidableEq, Repr

/-- A slot: `boneActive` models `slot.bone.active`; `attachment` models
`slot.getAttachment()` (null = `none`). -/
structure Slot where
  boneActive : Bool
  attachment : Option Attachment
  deriving DecidableEq, Repr

structure Skeleton where
  x : ℚ
  y : ℚ
  bones : List Bone
  slots : List Slot
  deriving DecidableEq, Repr

/-- Modelled from the spec: `SkeletonBoundsBase` (in `src/core`, not
provided) computes, from the current pose, the axis-aligned bounds and the
world-vertex polygons of the bounding-box attachments; `getWidth()` is
`maxX - minX` and `getHeight()` is `maxY - minY`.  The result of
`bounds.update(spine.skeleton, true)` is carried as read-only pose data on
the spine. -/
structure BoundsData where
  minX : ℚ
  minY : ℚ
  maxX : ℚ
  maxY : ℚ
  polygons : List (List ℚ)
  deriving DecidableEq, Repr

/-- A spine object: identity, its display children (ids of containers this
module attaches via `spine.addChild`), its scale, and the externally
maintained pose snapshot. -/
structure Spine where
  id : ℕ
  children : List ℕ
  scaleX : ℚ
  scaleY : ℚ
  skeleton : Skeleton
  bounds : BoundsData
  deriving DecidableEq, Repr

/-- Tags for the two `console.warn` messages of the class. -/
inductive Warn where
  | alreadyRegistered
  | notRegistered
  deriving DecidableEq, Repr

/-- A thrown JS exception: `typeErrorUndefined` models reading a property
of `undefined`; `thrown msg` models `throw new Error(msg)`. -/
inductive JsErr where
  | typeErrorUndefined
  | thrown (msg : String)
  deriving DecidableEq, Repr

/-- JS `Map.has`. -/
def mapHas {α : Type} : List (ℕ × α) → ℕ → Bool
  | [], _ => false
  | kv :: rest, k => kv.1 == k || mapHas rest k

/-- JS `Map.get` (returns `undefined`, i.e. `none`, when absent). -/
def mapGet {α : Type} : List (ℕ × α) → ℕ → Option α
  | [], _ => none
  | kv :: rest, k => if kv.1 == k then some kv.2 else mapGet rest k

/-- Replacement of the value stored under an existing key, in place. -/
def mapReplace {α : Type} : List (ℕ × α) → ℕ → α → List (ℕ × α)
  | [], _, _ => []
  | kv :: rest, k, v =>
      if kv.1 == k then (k, v) :: mapReplace rest k v
      else kv :: mapReplace rest k v

/-- JS `Map.set`: overwrites the entry in place when the key is present,
otherwise appends (insertion order is preserved). -/
def mapSet {α : Type} (m : List (ℕ × α)) (k : ℕ) (v : α) : List (ℕ × α) :=
  if mapHas m k then mapReplace m k v else m ++ [(k, v)]

/-- JS `Map.delete`. -/
def mapDelete {α : Type} : List (ℕ × α) → ℕ → List (ℕ × α)
  | [], _ => []
  | kv :: rest, k =>
      if kv.1 == k then mapDelete rest k else kv :: mapDelete rest k

/-- The boolean toggles and color/width configuration fields of the
renderer that the drawing code reads (`drawDebug` is a public field of the
class but, as claim C9 records, no code path reads it, so it is not part
of the settings view). -/
structure DrawSettings where
  drawMeshHull : Bool
  drawMeshTriangles : Bool
  drawBones : Bool
  drawPaths : Bool
  drawBoundingBoxes : Bool
  drawClipping : Bool
  drawRegionAttachments : Bool
  lineWidth : ℚ
  regionAttachmentsColor : ℕ
  meshHullColor : ℕ
  meshTrianglesColor : ℕ
  clippingPolygonColor : ℕ
  boundingBoxesRectColor : ℕ
  boundingBoxesPolygonColor : ℕ
  boundingBoxesCircleColor : ℕ
  pathsCurveColor : ℕ
  pathsLineColor : ℕ
  skeletonXYColor : ℕ
  bonesColor : ℕ
  deriving DecidableEq, Repr

/-- State of a `SpineDebugRenderer` instance, plus the observable effects
this module has on its environment: the warning log, the set of destroyed
display-object ids, and a fresh-id counter modelling object allocation. -/
structure RendererState where
  registeredSpines : List (ℕ × DebugDisplayObjects)
  drawDebug : Bool
  drawMeshHull : Bool
  drawMeshTriangles : Bool
  drawBones : Bool
  drawPaths : Bool
  drawBoundingBoxes : Bool
  drawClipping : Bool
  drawRegionAttachments : Bool
  lineWidth : ℚ
  regionAttachmentsColor : ℕ
  meshHullColor : ℕ
  meshTrianglesColor : ℕ
  clippingPolygonColor : ℕ
  boundingBoxesRectColor : ℕ
  boundingBoxesPolygonColor : ℕ
  boundingBoxesCircleColor : ℕ
  pathsCurveColor : ℕ
  pathsLineColor : ℕ
  skeletonXYColor : ℕ
  bonesColor : ℕ
  nextId : ℕ
  warnings : List Warn
  destroyed : List ℕ
  deriving DecidableEq, Repr

/-- The settings view of a renderer state (every configuration field the
drawing code reads). -/
def settings (s : RendererState) : DrawSettings :=
  { drawMeshHull := s.drawMeshHull
    drawMeshTriangles := s.drawMeshTriangles
    drawBones := s.drawBones
    drawPaths := s.drawPaths
    drawBoundingBoxes := s.drawBoundingBoxes
    drawClipping := s.drawClipping
    drawRegionAttachments := s.drawRegionAttachments
    lineWidth := s.lineWidth
    regionAttachmentsColor := s.regionAttachmentsColor
    meshHullColor := s.meshHullColor
    meshTrianglesColor := s.meshTrianglesColor
    clippingPolygonColor := s.clippingPolygonColor
    boundingBoxesRectColor := s.boundingBoxesRectColor
    boundingBoxesPolygonColor := s.boundingBoxesPolygonColor
    boundingBoxesCircleColor := s.boundingBoxesCircleColor
    pathsCurveColor := s.pathsCurveColor
    pathsLineColor := s.pathsLineColor
    skeletonXYColor := s.skeletonXYColor
    bonesColor := s.bonesColor }

/-- A new renderer (the field initializers of the class). -/
def initialRenderer : RendererState :=
  { registeredSpines := []
    drawDebug := true
    drawMeshHull := true
    drawMeshTriangles := true
    drawBones := true
    drawPaths := true
    drawBoundingBoxes := true
    drawClipping := true
    drawRegionAttachments := true
    lineWidth := 1
    regionAttachmentsColor := 0x0078ff
    meshHullColor := 0x0078ff
    meshTrianglesColor := 0xffcc00
    clippingPolygonColor := 0xff00ff
    boundingBoxesRectColor := 0x00ff00
    boundingBoxesPolygonColor := 0x00ff00
    boundingBoxesCircleColor := 0x00ff00
    pathsCurveColor := 0xff0000
    pathsLineColor := 0xff00ff
    skeletonXYColor := 0xff0000
    bonesColor := 0x00eecc
    nextId := 0
    warnings := []
    destroyed := [] }

/-- The `DebugDisplayObjects` literal built by `registerSpine`: twelve fresh
display objects, allocated in source order starting at id `n`
(`parentDebugContainer`, `bones`, `skeletonXY`, `regionAttachmentsShape`,
`meshTrianglesLine`, `meshHullLine`, `clippingPolygon`, `boundingBoxesRect`,
`boundingBoxesCircle`, `boundingBoxesPolygon`, `pathsCurve`, `pathsLine`),
the ten graphics and the bones container then added as children of the
parent container. -/
def freshDDO (n : ℕ) : DebugDisplayObjects :=
  { parentDebugContainerId := n
    bonesId := n + 1
    bonesChildren := []
    skeletonXY := ⟨n + 2, []⟩
    regionAttachmentsShape := ⟨n + 3, []⟩
    meshTrianglesLine := ⟨n + 4, []⟩
    meshHullLine := ⟨n + 5, []⟩
    clippingPolygon := ⟨n + 6, []⟩
    boundingBoxesRect := ⟨n + 7, []⟩
    boundingBoxesCircle := ⟨n + 8, []⟩
    boundingBoxesPolygon := ⟨n + 9, []⟩
    pathsCurve := ⟨n + 10, []⟩
    pathsLine := ⟨n + 11, []⟩ }

/-- All display-object ids owned by a registration entry: the parent
container, the bones container, the current bones children, and the ten
graphics surfaces (what `parentDebugContainer.destroy({children:true,...})`
destroys). -/
def ddoAllIds (d : DebugDisplayObjects) : List ℕ :=
  [d.parentDebugContainerId, d.bonesId] ++ d.bonesChildren.map BoneGp.id ++
    [d.skeletonXY.id, d.regionAttachmentsShape.id, d.meshTrianglesLine.id,
     d.meshHullLine.id, d.clippingPolygon.id, d.boundingBoxesRect.id,
     d.boundingBoxesCircle.id, d.boundingBoxesPolygon.id,
     d.pathsCurve.id, d.pathsLine.id]

/-- `SpineDebugRenderer.registerSpine` (source lines 77-112): warn when the
spine is already registered, then (unconditionally) build a fresh bundle of
display objects, attach its parent container to the spine, and `set` it
into the registration map. -/
def registerSpine (s : RendererState) (spine : Spine) : RendererState × Spine :=
  let warns :=
    if mapHas s.registeredSpines spine.id then s.warnings ++ [Warn.alreadyRegistered]
    else s.warnings
  let ddo := freshDDO s.nextId
  ({ s with
      warnings := warns
      registeredSpines := mapSet s.registeredSpines spine.id ddo
      nextId := s.nextId + 12 },
   { spine with children := spine.children ++ [ddo.parentDebugContainerId] })

/-- `SpineDebugRenderer.unregisterSpine` (source lines 476-483): warn when
the spine is not registered, then read the map entry and destroy its parent
container with all children, and delete the entry.  When the spine is not
registered, `Map.get` returns `undefined` and the access
`debugDisplayObjects.parentDebugContainer` throws a `TypeError` before the
`delete`, which is modelled by the `none` branch. -/
def unregisterSpine (s : RendererState) (spine : Spine) : RendererState × Option JsErr :=
  let warns :=
    if mapHas s.registeredSpines spine.id then s.warnings
    else s.warnings ++ [Warn.notRegistered]
  match mapGet s.registeredSpines spine.id with
  | none => ({ s with warnings := warns }, some JsErr.typeErrorUndefined)
  | some ddo =>
      ({ s with
          warnings := warns
          destroyed := s.destroyed ++ ddoAllIds ddo
          registeredSpines := mapDelete s.registeredSpines spine.id },
       none)

/-- The local vertex buffer filled by `computeWorldVertices(slot, 0, n,
vertices, 0, 2)` into a fresh `Float32Array(n)`: the first `n` world
vertices of the attachment (a fresh array is zero-initialized, hence the
padding). -/
def mkWorld (w : List ℚ) (n : ℕ) : List ℚ :=
  w.take n ++ List.replicate (n - w.length) 0

/-- The `clear()` calls at the top of `renderDebug` (source lines 122-131):
the ten graphics surfaces drop their recorded commands; object ids are
unchanged (`clear` does not destroy). -/
def clearSurfaces (d : DebugDisplayObjects) : DebugDisplayObjects :=
  { d with
      skeletonXY := { d.skeletonXY with cmds := [] }
      regionAttachmentsShape := { d.regionAttachmentsShape with cmds := [] }
      meshTrianglesLine := { d.meshTrianglesLine with cmds := [] }
      meshHullLine := { d.meshHullLine with cmds := [] }
      clippingPolygon := { d.clippingPolygon with cmds := [] }
      boundingBoxesRect := { d.boundingBoxesRect with cmds := [] }
      boundingBoxesCircle := { d.boundingBoxesCircle with cmds := [] }
      boundingBoxesPolygon := { d.boundingBoxesPolygon with cmds := [] }
      pathsCurve := { d.pathsCurve with cmds := [] }
      pathsLine := { d.pathsLine with cmds := [] } }

/-! ### drawBonesFunc (source lines 165-261) -/

/-- The per-bone loop of `drawBonesFunc`.  For each bone: skip when
`bone.data.name === "root"` or `bone.data.parent === null`; compute the
segment `(starX, starY) - (endX, endY)`, `w`, `h`, `a2 = w^2`, `b2 = h^2`,
`c = Math.sqrt(a2 + b2)`; skip when `c === 0`, which for the real square
root of a non-negative number holds exactly when `a2 + b2 = 0`, the test
used here; otherwise allocate a `Graphics` child `gp` at `(starX, starY)`
and add it to the bones container. -/
def bonesLoop (skX skY : ℚ) : List Bone → List BoneGp → ℕ → List BoneGp × ℕ
  | [], acc, nid => (acc, nid)
  | bone :: rest, acc, nid =>
      let starX := skX + bone.matrix.tx
      let starY := skY + bone.matrix.ty
      let endX := skX + bone.data.length * bone.matrix.a + bone.matrix.tx
      let endY := skY + bone.data.length * bone.matrix.b + bone.matrix.ty
      if bone.data.name = "root" ∨ bone.data.hasParent = false then
        bonesLoop skX skY rest acc nid
      else
        let w := |starX - endX|
        let h := |starY - endY|
        let a2 := w ^ 2
        let b2 := h ^ 2
        let c2 := a2 + b2
        if c2 = 0 then bonesLoop skX skY rest acc nid
        else bonesLoop skX skY rest (acc ++ [⟨nid, starX, starY, c2⟩]) (nid + 1)

/-- The commands `drawBonesFunc` records on the `skeletonXY` surface: the
initial `lineStyle`, then (after the bone loop, which never touches this
surface) the skeleton starting point drawn as an "X". -/
def skeletonXYCmds (cfg : DrawSettings) (sk : Skeleton) (lineWidth : ℚ) : List Cmd :=
  let startDotSize := lineWidth * 3
  [Cmd.lineStyle lineWidth cfg.skeletonXYColor 1,
   Cmd.moveTo (sk.x - startDotSize) (sk.y - startDotSize),
   Cmd.lineTo (sk.x + startDotSize) (sk.y + startDotSize),
   Cmd.moveTo (sk.x + startDotSize) (sk.y - startDotSize),
   Cmd.lineTo (sk.x - startDotSize) (sk.y + startDotSize)]

/-- `SpineDebugRenderer.drawBonesFunc`: draws each qualifying bone as a new
child of the bones container and the skeleton origin marker on the
`skeletonXY` surface. -/
def drawBonesFunc (cfg : DrawSettings) (spine : Spine) (ddo : DebugDisplayObjects)
    (lineWidth : ℚ) (nid : ℕ) : DebugDisplayObjects × ℕ :=
  let sk := spine.skeleton
  let r := bonesLoop sk.x sk.y sk.bones ddo.bonesChildren nid
  ({ ddo with
      bonesChildren := r.1
      skeletonXY :=
        { ddo.skeletonXY with
            cmds := ddo.skeletonXY.cmds ++ skeletonXYCmds cfg sk lineWidth } },
   r.2)

/-! ### drawPathsFunc (source lines 410-474) -/

/-- The segment loop of `drawPathsFunc`: `for (let ii = 4; ii < nn; ii += 6)`
after `nn -= 4`, drawing one cubic segment per step on the curve surface
and its two handles on the line surface.  Out-of-range JS reads would give
`NaN`; they are modelled as `0` (no claim depends on such inputs). -/
def pathLoop (world : List ℚ) (nn4 : ℕ) (ii : ℕ) (x1 y1 : ℚ) : List Cmd × List Cmd :=
  if ii < nn4 then
    let cx1 := world.getD ii 0
    let cy1 := world.getD (ii + 1) 0
    let cx2 := world.getD (ii + 2) 0
    let cy2 := world.getD (ii + 3) 0
    let x2 := world.getD (ii + 4) 0
    let y2 := world.getD (ii + 5) 0
    let rest := pathLoop world nn4 (ii + 6) x2 y2
    (Cmd.moveTo x1 y1 :: Cmd.bezierCurveTo cx1 cy1 cx2 cy2 x2 y2 :: rest.1,
     Cmd.moveTo x1 y1 :: Cmd.lineTo cx1 cy1 :: Cmd.moveTo x2 y2 :: Cmd.lineTo cx2 cy2 :: rest.2)
  else ([], [])
termination_by nn4 - ii

/-- The commands one path attachment contributes to the `(pathsCurve,
pathsLine)` surfaces: the closing segment when `pathAttachment.closed`,
then the interior segments.  Index arithmetic `nn - k` is ℕ-truncated;
for a well-formed path `nn ≥ 4` and it agrees with JS. -/
def pathSlotCmds (world : List ℚ) (nn : ℕ) (closed : Bool) : List Cmd × List Cmd :=
  let x1 := world.getD 2 0
  let y1 := world.getD 3 0
  let head : List Cmd × List Cmd :=
    if closed then
      let cx1 := world.getD 0 0
      let cy1 := world.getD 1 0
      let cx2 := world.getD (nn - 2) 0
      let cy2 := world.getD (nn - 1) 0
      let x2 := world.getD (nn - 4) 0
      let y2 := world.getD (nn - 3) 0
      ([Cmd.moveTo x1 y1, Cmd.bezierCurveTo cx1 cy1 cx2 cy2 x2 y2],
       [Cmd.moveTo x1 y1, Cmd.lineTo cx1 cy1, Cmd.moveTo x2 y2, Cmd.lineTo cx2 cy2])
    else ([], [])
  let tail := pathLoop world (nn - 4) 4 x1 y1
  (head.1 ++ tail.1, head.2 ++ tail.2)

/-- The slot loop of `drawPathsFunc`: slots whose bone is inactive or whose
attachment is not a path are skipped. -/
def pathsCmds : List Slot → List Cmd × List Cmd
  | [] => ([], [])
  | slot :: rest =>
      let r := pathsCmds rest
      if slot.boneActive = false then r
      else
        match slot.attachment with
        | some (Attachment.path closed nn w) =>
            let c := pathSlotCmds (mkWorld w nn) nn closed
            (c.1 ++ r.1, c.2 ++ r.2)
        | _ => r

/-- `SpineDebugRenderer.drawPathsFunc`. -/
def drawPathsFunc (cfg : DrawSettings) (spine : Spine) (ddo : DebugDisplayObjects)
    (lineWidth : ℚ) : DebugDisplayObjects :=
  let c := pathsCmds spine.skeleton.slots
  { ddo with
      pathsCurve :=
        { ddo.pathsCurve with
            cmds := ddo.pathsCurve.cmds ++
              Cmd.lineStyle lineWidth cfg.pathsCurveColor 1 :: c.1 }
      pathsLine :=
        { ddo.pathsLine with
            cmds := ddo.pathsLine.cmds ++
              Cmd.lineStyle lineWidth cfg.pathsLineColor 1 :: c.2 } }

/-! ### drawClippingFunc (source lines 344-366) -/

/-- The slot loop of `drawClippingFunc`: one `drawPolygon` of the world
vertices per active clipping attachment. -/
def clippingCmds : List Slot → List Cmd
  | [] => []
  | slot :: rest =>
      let r := clippingCmds rest
      if slot.boneActive = false then r
      else
        match slot.attachment with
        | some (Attachment.clipping nn w) => Cmd.drawPoly (mkWorld w nn) :: r
        | _ => r

/-- `SpineDebugRenderer.drawClippingFunc`. -/
def drawClippingFunc (cfg : DrawSettings) (spine : Spine) (ddo : DebugDisplayObjects)
    (lineWidth : ℚ) : DebugDisplayObjects :=
  { ddo with
      clippingPolygon :=
        { ddo.clippingPolygon with
            cmds := ddo.clippingPolygon.cmds ++
              Cmd.lineStyle lineWidth cfg.clippingPolygonColor 1 ::
                clippingCmds spine.skeleton.slots } }

/-! ### drawMeshHullAndMeshTriangles (source lines 292-342) -/

/-- The triangle loop: `for (let i = 0; i < triangles.length; i += 3)`,
three commands per triangle on the triangles surface. -/
def triLoop (tris : List ℕ) (verts : List ℚ) (i : ℕ) : List Cmd :=
  if i < tris.length then
    let v1 := tris.getD i 0 * 2
    let v2 := tris.getD (i + 1) 0 * 2
    let v3 := tris.getD (i + 2) 0 * 2
    Cmd.moveTo (verts.getD v1 0) (verts.getD (v1 + 1) 0) ::
      Cmd.lineTo (verts.getD v2 0) (verts.getD (v2 + 1) 0) ::
        Cmd.lineTo (verts.getD v3 0) (verts.getD (v3 + 1) 0) ::
          triLoop tris verts (i + 3)
  else []
termination_by tris.length - i

/-- The hull loop: `for (let i = 0; i < hullLength; i += 2)`, one edge from
the current vertex back to the previous one. -/
def hullLoop (verts : List ℚ) (hullLength : ℕ) (i : ℕ) (lastX lastY : ℚ) : List Cmd :=
  if i < hullLength then
    let x := verts.getD i 0
    let y := verts.getD (i + 1) 0
    Cmd.moveTo x y :: Cmd.lineTo lastX lastY :: hullLoop verts hullLength (i + 2) x y
  else []
termination_by hullLength - i

/-- The slot loop of `drawMeshHullAndMeshTriangles`: per active mesh slot,
the triangle commands when `this.drawMeshTriangles`, the hull commands when
`this.drawMeshHull && hullLength > 0` (with `hullLength = (hullLength >> 1)
* 2` and the edge chain seeded from the last hull vertex).  Returns
`(hull surface commands, triangle surface commands)`. -/
def meshCmds (cfg : DrawSettings) : List Slot → List Cmd × List Cmd
  | [] => ([], [])
  | slot :: rest =>
      let r := meshCmds cfg rest
      if slot.boneActive = false then r
      else
        match slot.attachment with
        | some (Attachment.mesh n tris hullLength w) =>
            let verts := mkWorld w n
            let triangleCmds := if cfg.drawMeshTriangles then triLoop tris verts 0 else []
            let hullCmds :=
              if cfg.drawMeshHull ∧ hullLength > 0 then
                let hl := hullLength / 2 * 2
                hullLoop verts hl 0 (verts.getD (hl - 2) 0) (verts.getD (hl - 1) 0)
              else []
            (hullCmds ++ r.1, triangleCmds ++ r.2)
        | _ => r

/-- `SpineDebugRenderer.drawMeshHullAndMeshTriangles`: both surfaces get
their `lineStyle` whenever the function runs; geometry is gated per toggle
inside the loop. -/
def drawMeshHullAndMeshTriangles (cfg : DrawSettings) (spine : Spine)
    (ddo : DebugDisplayObjects) (lineWidth : ℚ) : DebugDisplayObjects :=
  let c := meshCmds cfg spine.skeleton.slots
  { ddo with
      meshHullLine :=
        { ddo.meshHullLine with
            cmds := ddo.meshHullLine.cmds ++
              Cmd.lineStyle lineWidth cfg.meshHullColor 1 :: c.1 }
      meshTrianglesLine :=
        { ddo.meshTrianglesLine with
            cmds := ddo.meshTrianglesLine.cmds ++
              Cmd.lineStyle lineWidth cfg.meshTrianglesColor 1 :: c.2 } }

/-! ### drawRegionAttachmentsFunc (source lines 263-290) -/

/-- The slot loop of `drawRegionAttachmentsFunc`: no bone-active check in
the source; `updateOffset()` is modelled as a pure read; the local buffer
is `Float32Array(8)` and `drawPolygon` receives its first 8 entries. -/
def regionCmds : List Slot → List Cmd
  | [] => []
  | slot :: rest =>
      let r := regionCmds rest
      match slot.attachment with
      | some (Attachment.region w) => Cmd.drawPoly (mkWorld w 8) :: r
      | _ => r

/-- `SpineDebugRenderer.drawRegionAttachmentsFunc`. -/
def drawRegionAttachmentsFunc (cfg : DrawSettings) (spine : Spine)
    (ddo : DebugDisplayObjects) (lineWidth : ℚ) : DebugDisplayObjects :=
  { ddo with
      regionAttachmentsShape :=
        { ddo.regionAttachmentsShape with
            cmds := ddo.regionAttachmentsShape.cmds ++
              Cmd.lineStyle lineWidth cfg.regionAttachmentsColor 1 ::
                regionCmds spine.skeleton.slots } }

/-! ### drawBoundingBoxesFunc (source lines 368-408) -/

/-- The message of the error thrown by the inner `drawPolygon` helper. -/
def polygonErrMsg : String := "Polygon must contain at least 3 vertices"

/-- The vertex loop of the inner `drawPolygon` helper: per coordinate pair,
a dot on the circle surface (`lineStyle(0)`, `beginFill`, `drawCircle`,
`endFill`) and the pair pushed onto `paths`. -/
def bbVertexLoop (cfg : DrawSettings) (poly : List ℚ) (dotSize : ℚ) (i : ℕ) :
    List Cmd × List ℚ :=
  if i < poly.length then
    let x1 := poly.getD i 0
    let y1 := poly.getD (i + 1) 0
    let rest := bbVertexLoop cfg poly dotSize (i + 2)
    (Cmd.lineStyle 0 0 1 :: Cmd.beginFill cfg.boundingBoxesCircleColor 1 ::
       Cmd.drawCircle x1 y1 dotSize :: Cmd.endFill :: rest.1,
     x1 :: y1 :: rest.2)
  else ([], [])
termination_by poly.length - i

/-- The inner `drawPolygon` helper of `drawBoundingBoxesFunc` (source lines
377-402): style commands on the polygon surface first, then `throw new
Error(...)` when `count < 3` (the call site passes `polygon.length`, the
flat coordinate count), otherwise the vertex loop and the filled polygon. -/
def bbDrawPolygon (cfg : DrawSettings) (lineWidth : ℚ) (ddo : DebugDisplayObjects)
    (poly : List ℚ) (count : ℕ) : DebugDisplayObjects × Option JsErr :=
  let ddo :=
    { ddo with
        boundingBoxesPolygon :=
          { ddo.boundingBoxesPolygon with
              cmds := ddo.boundingBoxesPolygon.cmds ++
                [Cmd.lineStyle lineWidth cfg.boundingBoxesPolygonColor 1,
                 Cmd.beginFill cfg.boundingBoxesPolygonColor (1 / 10)] } }
  if count < 3 then (ddo, some (JsErr.thrown polygonErrMsg))
  else
    let dotSize := lineWidth * 2
    let r := bbVertexLoop cfg poly dotSize 0
    ({ ddo with
        boundingBoxesCircle :=
          { ddo.boundingBoxesCircle with
              cmds := ddo.boundingBoxesCircle.cmds ++ r.1 }
        boundingBoxesPolygon :=
          { ddo.boundingBoxesPolygon with
              cmds := ddo.boundingBoxesPolygon.cmds ++
                [Cmd.drawPoly r.2, Cmd.endFill] } },
     none)

/-- The polygon loop of `drawBoundingBoxesFunc`: `drawPolygon(polygon, 0,
polygon.length)` per polygon; a thrown error propagates, keeping the
mutations already made. -/
def bbPolysLoop (cfg : DrawSettings) (lineWidth : ℚ) (ddo : DebugDisplayObjects) :
    List (List ℚ) → DebugDisplayObjects × Option JsErr
  | [] => (ddo, none)
  | poly :: rest =>
      let r := bbDrawPolygon cfg lineWidth ddo poly poly.length
      match r.2 with
      | some e => (r.1, some e)
      | none => bbPolysLoop cfg lineWidth r.1 rest

/-- `SpineDebugRenderer.drawBoundingBoxesFunc`: the overall bounds
rectangle (note the literal alpha `5` from the source), then each
bounding-box polygon. -/
def drawBoundingBoxesFunc (cfg : DrawSettings) (spine : Spine)
    (ddo : DebugDisplayObjects) (lineWidth : ℚ) : DebugDisplayObjects × Option JsErr :=
  let b := spine.bounds
  let ddo :=
    { ddo with
        boundingBoxesRect :=
          { ddo.boundingBoxesRect with
              cmds := ddo.boundingBoxesRect.cmds ++
                [Cmd.lineStyle lineWidth cfg.boundingBoxesRectColor 5,
                 Cmd.drawRect b.minX b.minY (b.maxX - b.minX) (b.maxY - b.minY)] } }
  bbPolysLoop cfg lineWidth ddo b.polygons

/-! ### renderDebug (source lines 113-163) -/

/-- The JS expression `spine.scale.x || spine.scale.y || 1` (`||` takes the
first operand that is not falsy; `0` is falsy). -/
def jsScale (spine : Spine) : ℚ :=
  if spine.scaleX ≠ 0 then spine.scaleX
  else if spine.scaleY ≠ 0 then spine.scaleY
  else 1

/-- `SpineDebugRenderer.renderDebug`: register on first render, fetch the
entry, clear the ten surfaces, destroy every child of the bones container,
compute `scale = spine.scale.x || spine.scale.y || 1` and `lineWidth =
this.lineWidth / scale`, then run each drawing pass under its toggle
(mesh hull and mesh triangles share one pass under the disjunction of
their toggles).  A throw from the bounding-box pass propagates; mutations
made up to it persist (the JS objects are mutated in place, so the updated
bundle is still the map entry). -/
def renderDebug (s : RendererState) (spine : Spine) :
    RendererState × Spine × Option JsErr :=
  let reg :=
    if mapHas s.registeredSpines spine.id then (s, spine)
    else registerSpine s spine
  let s0 := reg.1
  let spine0 := reg.2
  match mapGet s0.registeredSpines spine0.id with
  | none => (s0, spine0, some JsErr.typeErrorUndefined)
  | some ddo =>
      let oldBoneIds := ddo.bonesChildren.map BoneGp.id
      let ddo := { clearSurfaces ddo with bonesChildren := [] }
      let lineWidth := s0.lineWidth / jsScale spine0
      let bonesR :=
        if s0.drawBones then drawBonesFunc (settings s0) spine0 ddo lineWidth s0.nextId
        else (ddo, s0.nextId)
      let ddo := bonesR.1
      let nid := bonesR.2
      let ddo :=
        if s0.drawPaths then drawPathsFunc (settings s0) spine0 ddo lineWidth else ddo
      let bb :=
        if s0.drawBoundingBoxes then
          drawBoundingBoxesFunc (settings s0) spine0 ddo lineWidth
        else (ddo, none)
      match bb with
      | (ddoE, some e) =>
          ({ s0 with
              registeredSpines := mapSet s0.registeredSpines spine0.id ddoE
              nextId := nid
              destroyed := s0.destroyed ++ oldBoneIds },
           spine0, some e)
      | (ddo1, none) =>
          let ddo1 :=
            if s0.drawClipping then drawClippingFunc (settings s0) spine0 ddo1 lineWidth
            else ddo1
          let ddo1 :=
            if s0.drawMeshHull ∨ s0.drawMeshTriangles then
              drawMeshHullAndMeshTriangles (settings s0) spine0 ddo1 lineWidth
            else ddo1
          let ddo1 :=
            if s0.drawRegionAttachments then
              drawRegionAttachmentsFunc (settings s0) spine0 ddo1 lineWidth
            else ddo1
          ({ s0 with
              registeredSpines := mapSet s0.registeredSpines spine0.id ddo1
              nextId := nid
              destroyed := s0.destroyed ++ oldBoneIds },
           spine0, none)

/-- The keys of the registration map. -/
def mapKeys {α : Type} (m : List (ℕ × α)) : List ℕ :=
  m.map Prod.fst

/-! ### Operation sequences (for the one-registration-per-spine invariant) -/

/-- A call to one of the three public methods of the renderer. -/
inductive Op where
  | register (sp : Spine)
  | unregister (sp : Spine)
  | render (sp : Spine)

/-- The renderer state reached after one public call (a thrown exception
propagates to the caller; the state keeps the mutations made before the
throw). -/
def stepOp (s : RendererState) : Op → RendererState
  | Op.register sp => (registerSpine s sp).1
  | Op.unregister sp => (unregisterSpine s sp).1
  | Op.render sp => (renderDebug s sp).1

/-- The renderer state after a sequence of public calls. -/
def runOps (s : RendererState) (ops : List Op) : RendererState :=
  ops.foldl stepOp s

/-! ### Example inputs used by the witnesses -/

/-- A minimal spine object (empty pose). -/
def spineA : Spine :=
  { id := 7
    children := []
    scaleX := 1
    scaleY := 1
    skeleton := { x := 0, y := 0, bones := [], slots := [] }
    bounds := { minX := 0, minY := 0, maxX := 0, maxY := 0, polygons := [] } }

/-- A spine with one drawable bone, one slot of every attachment kind and
one 3-vertex bounding-box polygon. -/
def spineB : Spine :=
  { id := 3
    children := []
    scaleX := 1
    scaleY := 1
    skeleton :=
      { x := 1
        y := 2
        bones :=
          [{ data := { name := "root", hasParent := false, length := 0 }
             matrix := { a := 1, b := 0, tx := 0, ty := 0 }
             active := true },
           { data := { name := "arm", hasParent := true, length := 5 }
             matrix := { a := 1, b := 0, tx := 2, ty := 3 }
             active := true }]
        slots :=
          [{ boneActive := true, attachment := some (Attachment.region [0, 0, 4, 0, 4, 4, 0, 4]) },
           { boneActive := true
             attachment := some (Attachment.mesh 6 [0, 1, 2] 6 [0, 0, 2, 0, 1, 2]) },
           { boneActive := true, attachment := some (Attachment.clipping 6 [0, 0, 1, 0, 1, 1]) },
           { boneActive := true
             attachment := some (Attachment.path false 10 [0, 0, 1, 1, 2, 2, 3, 3, 4, 4]) },
           { boneActive := false, attachment := some (Attachment.clipping 4 [9, 9, 9, 9]) },
           { boneActive := true, attachment := none }] }
    bounds := { minX := 0, minY := 0, maxX := 4, maxY := 4, polygons := [[0, 0, 4, 0, 4, 4]] } }

/-- Qualifying bones per the claim: not named "root", having a parent, and
with the drawn segment endpoints distinct (nonzero segment length). -/
def boneKept (skX skY : ℚ) (bone : Bone) : Bool :=
  decide (¬ (bone.data.name = "root" ∨ bone.data.hasParent = false) ∧
    (skX + bone.matrix.tx, skY + bone.matrix.ty) ≠
      (skX + bone.data.length * bone.matrix.a + bone.matrix.tx,
       skY + bone.data.length * bone.matrix.b + bone.matrix.ty))

/-- C4 counterexample: `[0, 0, 1, 0]` is a bounding-box polygon with 2
vertices (4 coordinates), i.e. fewer than 3 vertices, yet
`drawBoundingBoxesFunc` raises no error on it, because the `count < 3`
check compares the flat coordinate count (4), not the vertex count (2). -/
def spineTwoVert : Spine :=
  { spineA with
      bounds := { minX := 0, minY := 0, maxX := 1, maxY := 0, polygons := [[0, 0, 1, 0]] } }

/-- The commands the bounding-box polygon loop adds to the circle surface
(it stops at the first polygon that fails the count check). -/
def bbCirclesCmds (cfg : DrawSettings) (lw : ℚ) : List (List ℚ) → List Cmd
  | [] => []
  | p :: rest =>
      if p.length < 3 then []
      else (bbVertexLoop cfg p (lw * 2) 0).1 ++ bbCirclesCmds cfg lw rest

/-- The commands the bounding-box polygon loop adds to the polygon surface:
the style pair per polygon, then on success the filled polygon, stopping at
the first polygon that fails the count check. -/
def bbPolygonCmds (cfg : DrawSettings) (lw : ℚ) : List (List ℚ) → List Cmd
  | [] => []
  | p :: rest =>
      Cmd.lineStyle lw cfg.boundingBoxesPolygonColor 1 ::
        Cmd.beginFill cfg.boundingBoxesPolygonColor (1 / 10) ::
          (if p.length < 3 then []
           else Cmd.drawPoly (bbVertexLoop cfg p (lw * 2) 0).2 :: Cmd.endFill ::
             bbPolygonCmds cfg lw rest)

/-- Witness for C3 at a concrete registered spine. -/
def c3State : RendererState := (registerSpine initialRenderer spineB).1

/-! ### Association-list lemmas for the JS `Map` model -/

theorem mapGet_isSome_eq_mapHas {α : Type} (m : List (ℕ × α)) (k : ℕ) :
    (mapGet m k).isSome = mapHas m k := by
  induction m with
  | nil => rfl
  | cons kv rest ih => cases h : (kv.1 == k) <;> simp [mapGet, mapHas, h, ih]

theorem mapHas_of_mapGet_eq_some {α : Type} {m : List (ℕ × α)} {k : ℕ} {v : α}
    (h : mapGet m k = some v) : mapHas m k = true := by
  rw [← mapGet_isSome_eq_mapHas, h]; rfl

theorem mapGet_mapReplace_self {α : Type} (m : List (ℕ × α)) (k : ℕ) (v : α)
    (hh : mapHas m k = true) : mapGet (mapReplace m k v) k = some v := by
  induction m with
  | nil => simp [mapHas] at hh
  | cons kv rest ih =>
      cases h : (kv.1 == k) with
      | true => simp [mapReplace, mapGet, h]
      | false =>
          have hh' : mapHas rest k = true := by simpa [mapHas, h] using hh
          simp [mapReplace, mapGet, h, ih hh']

theorem mapGet_append_single_self {α : Type} (m : List (ℕ × α)) (k : ℕ) (v : α)
    (hh : mapHas m k = false) : mapGet (m ++ [(k, v)]) k = some v := by
  induction m with
  | nil => simp [mapGet]
  | cons kv rest ih =>
      have h : (kv.1 == k) = false := by
        cases h : (kv.1 == k) <;> simp [mapHas, h] at hh ⊢
      have hh' : mapHas rest k = false := by simpa [mapHas, h] using hh
      simp [mapGet, h, ih hh']

theorem mapGet_mapSet_self {α : Type} (m : List (ℕ × α)) (k : ℕ) (v : α) :
    mapGet (mapSet m k v) k = some v := by
  unfold mapSet
  cases hh : mapHas m k with
  | true => simpa [hh] using mapGet_mapReplace_self m k v hh
  | false => simpa [hh] using mapGet_append_single_self m k v hh

theorem mapGet_mapDelete_self {α : Type} (m : List (ℕ × α)) (k : ℕ) :
    mapGet (mapDelete m k) k = none := by
  induction m with
  | nil => rfl
  | cons kv rest ih => cases h : (kv.1 == k) <;> simp [mapDelete, mapGet, h, ih]

theorem mapKeys_mapReplace {α : Type} (m : List (ℕ × α)) (k : ℕ) (v : α) :
    mapKeys (mapReplace m k v) = mapKeys m := by
  induction m with
  | nil => rfl
  | cons kv rest ih =>
      have ih' : List.map Prod.fst (mapReplace rest k v) = List.map Prod.fst rest := by
        simpa [mapKeys] using ih
      cases h : (kv.1 == k) with
      | true =>
          have hk : kv.1 = k := by simpa using h
          simp [mapReplace, mapKeys, h, hk, ih']
      | false => simp [mapReplace, mapKeys, h, ih']

theorem not_mem_mapKeys_of_mapHas_eq_false {α : Type} {m : List (ℕ × α)} {k : ℕ}
    (h : mapHas m k = false) : k ∉ mapKeys m := by
  induction m with
  | nil => simp [mapKeys]
  | cons kv rest ih =>
      have h1 : (kv.1 == k) = false := by
        cases h1 : (kv.1 == k) <;> simp [mapHas, h1] at h ⊢
      have h2 : mapHas rest k = false := by simpa [mapHas, h1] using h
      have h3 : kv.1 ≠ k := by simpa using h1
      simp [mapKeys] at ih ⊢
      exact ⟨fun hk => h3 hk.symm, by simpa [mapKeys] using ih h2⟩

theorem nodup_mapKeys_mapSet {α : Type} (m : List (ℕ × α)) (k : ℕ) (v : α)
    (h : (mapKeys m).Nodup) : (mapKeys (mapSet m k v)).Nodup := by
  unfold mapSet
  cases hh : mapHas m k with
  | true => simpa [mapKeys_mapReplace] using h
  | false =>
      have he : mapKeys (m ++ [(k, v)]) = mapKeys m ++ [k] := by simp [mapKeys]
      rw [if_neg (by simp [hh]), he]
      simpa [List.nodup_append] using
        ⟨h, fun hk => not_mem_mapKeys_of_mapHas_eq_false hh hk⟩

theorem mapKeys_mapDelete_sublist {α : Type} (m : List (ℕ × α)) (k : ℕ) :
    (mapKeys (mapDelete m k)).Sublist (mapKeys m) := by
  induction m with
  | nil => simp [mapDelete, mapKeys]
  | cons kv rest ih =>
      have ih' : (List.map Prod.fst (mapDelete rest k)).Sublist (List.map Prod.fst rest) := by
        simpa [mapKeys] using ih
      cases h : (kv.1 == k) with
      | true =>
          simp only [mapDelete, h, if_pos rfl, mapKeys, List.map_cons]
          exact ih'.cons _
      | false =>
          simp only [mapDelete, h, mapKeys, List.map_cons]
          rw [if_neg (by simp [h])]
          exact ih'.cons₂ _

theorem nodup_mapKeys_mapDelete {α : Type} (m : List (ℕ × α)) (k : ℕ)
    (h : (mapKeys m).Nodup) : (mapKeys (mapDelete m k)).Nodup :=
  h.sublist (mapKeys_mapDelete_sublist m k)

/-! ### Preservation of key uniqueness by each public operation -/

theorem nodup_keys_registerSpine (s : RendererState) (sp : Spine)
    (h : (mapKeys s.registeredSpines).Nodup) :
    (mapKeys (registerSpine s sp).1.registeredSpines).Nodup := by
  unfold registerSpine
  exact nodup_mapKeys_mapSet _ _ _ h

theorem nodup_keys_unregisterSpine (s : RendererState) (sp : Spine)
    (h : (mapKeys s.registeredSpines).Nodup) :
    (mapKeys (unregisterSpine s sp).1.registeredSpines).Nodup := by
  unfold unregisterSpine
  cases hg : mapGet s.registeredSpines sp.id with
  | none => simpa [hg] using h
  | some ddo => simpa [hg] using nodup_mapKeys_mapDelete _ _ h

theorem nodup_keys_renderDebug (s : RendererState) (sp : Spine)
    (h : (mapKeys s.registeredSpines).Nodup) :
    (mapKeys (renderDebug s sp).1.registeredSpines).Nodup := by
  unfold renderDebug
  by_cases hh : mapHas s.registeredSpines sp.id
  · simp only [hh, if_true]
    cases hg : mapGet s.registeredSpines sp.id with
    | none => simpa using h
    | some ddo =>
        simp only [hg]
        split
        · exact nodup_mapKeys_mapSet _ _ _ h
        · exact nodup_mapKeys_mapSet _ _ _ h
  · rw [if_neg (by simp [hh])]
    have h1 : (mapKeys (registerSpine s sp).1.registeredSpines).Nodup :=
      nodup_keys_registerSpine s sp h
    cases hg : mapGet (registerSpine s sp).1.registeredSpines (registerSpine s sp).2.id with
    | none => simpa [hg] using h1
    | some ddo =>
        simp only [hg]
        split
        · exact nodup_mapKeys_mapSet _ _ _ h1
        · exact nodup_mapKeys_mapSet _ _ _ h1

theorem mapHas_mapSet_self {α : Type} (m : List (ℕ × α)) (k : ℕ) (v : α) :
    mapHas (mapSet m k v) k = true := by
  rw [← mapGet_isSome_eq_mapHas, mapGet_mapSet_self]; rfl

/-! ### Claim theorems: registration lifecycle -/

/-- C1 (code-bug evidence): calling `unregisterSpine` on a spine that is
not in the registration map logs the warning but then throws a `TypeError`
(the `Map.get` result is `undefined` and `.parentDebugContainer` is read
from it), leaving the registration map, the destroyed set and the spine
object unchanged.  The claim (and the spec) say the call does not throw;
the thrown error contradicts them, while the guard warning text shows the
intended behavior. -/
theorem unregister_unregistered_throws :
    unregisterSpine initialRenderer spineA =
      ({ initialRenderer with warnings := [Warn.notRegistered] },
       some JsErr.typeErrorUndefined) := by
  rfl

/-- C2 (code-bug evidence): calling `registerSpine` twice with the same
spine logs the warning but then builds a second bundle of display objects,
attaches a second debug container to the spine (its child list becomes
`[0, 12]`, two parent containers), and replaces the map entry with the
fresh bundle (object ids starting at 12) instead of keeping the existing
entry (ids starting at 0). -/
theorem register_twice_replaces_and_duplicates :
    (registerSpine (registerSpine initialRenderer spineA).1
        (registerSpine initialRenderer spineA).2).2.children = [0, 12] ∧
    (registerSpine (registerSpine initialRenderer spineA).1
        (registerSpine initialRenderer spineA).2).1.warnings = [Warn.alreadyRegistered] ∧
    mapGet (registerSpine (registerSpine initialRenderer spineA).1
        (registerSpine initialRenderer spineA).2).1.registeredSpines spineA.id =
      some (freshDDO 12) ∧
    freshDDO 12 ≠ freshDDO 0 :=
  ⟨rfl, rfl, rfl, by decide⟩

/-- C5: a registration entry is created on first debug-render: on an
unregistered spine, `renderDebug` behaves exactly as `registerSpine`
followed by `renderDebug` on the registered spine; registration creates
the fresh bundle (container and all drawing surfaces), inserts it into the
map under the spine, and attaches the parent container to the spine —
all before the drawing proceeds. -/
theorem renderDebug_registers_first (s : RendererState) (spine : Spine)
    (h : mapHas s.registeredSpines spine.id = false) :
    renderDebug s spine =
      renderDebug (registerSpine s spine).1 (registerSpine s spine).2 ∧
    mapGet (registerSpine s spine).1.registeredSpines spine.id =
      some (freshDDO s.nextId) ∧
    (registerSpine s spine).2.children = spine.children ++ [freshDDO s.nextId |>.parentDebugContainerId] := by
  refine ⟨?_, ?_, rfl⟩
  · have hpos : mapHas (registerSpine s spine).1.registeredSpines
        (registerSpine s spine).2.id = true := by
      simp only [registerSpine]
      exact mapHas_mapSet_self _ _ _
    unfold renderDebug
    rw [if_neg (by simp [h]), if_pos hpos]
  · simp only [registerSpine]
    exact mapGet_mapSet_self _ _ _

/-- Witness for C5 at a concrete input. -/
theorem renderDebug_registers_first_witness :
    mapHas initialRenderer.registeredSpines spineA.id = false ∧
    (renderDebug initialRenderer spineA =
        renderDebug (registerSpine initialRenderer spineA).1
          (registerSpine initialRenderer spineA).2 ∧
      mapGet (registerSpine initialRenderer spineA).1.registeredSpines spineA.id =
        some (freshDDO initialRenderer.nextId) ∧
      (registerSpine initialRenderer spineA).2.children =
        spineA.children ++ [freshDDO initialRenderer.nextId |>.parentDebugContainerId]) :=
  ⟨rfl, renderDebug_registers_first initialRenderer spineA rfl⟩

/-- C6: `unregisterSpine` on a registered spine destroys the registration
entry: the parent debug container is destroyed together with all of its
children (the bones container, the bone graphics it currently holds and
the ten graphics surfaces — `ddoAllIds`), the entry is removed from the
map, and no error is thrown. -/
theorem unregister_registered_destroys (s : RendererState) (spine : Spine)
    (ddo : DebugDisplayObjects)
    (h : mapGet s.registeredSpines spine.id = some ddo) :
    unregisterSpine s spine =
      ({ s with
          destroyed := s.destroyed ++ ddoAllIds ddo
          registeredSpines := mapDelete s.registeredSpines spine.id }, none) ∧
    mapGet (mapDelete s.registeredSpines spine.id) spine.id = none := by
  have hh : mapHas s.registeredSpines spine.id = true := mapHas_of_mapGet_eq_some h
  constructor
  · rw [unregisterSpine, if_pos hh, h]
  · exact mapGet_mapDelete_self _ _

/-- Witness for C6 at a concrete input. -/
theorem unregister_registered_destroys_witness :
    mapGet (registerSpine initialRenderer spineA).1.registeredSpines spineA.id =
      some (freshDDO 0) ∧
    (unregisterSpine (registerSpine initialRenderer spineA).1 spineA =
        ({ (registerSpine initialRenderer spineA).1 with
            destroyed := (registerSpine initialRenderer spineA).1.destroyed ++
              ddoAllIds (freshDDO 0)
            registeredSpines :=
              mapDelete (registerSpine initialRenderer spineA).1.registeredSpines
                spineA.id }, none) ∧
      mapGet (mapDelete (registerSpine initialRenderer spineA).1.registeredSpines
          spineA.id) spineA.id = none) :=
  ⟨rfl, unregister_registered_destroys (registerSpine initialRenderer spineA).1 spineA
    (freshDDO 0) rfl⟩

/-- C7: one registration per animated object: across any sequence of
`registerSpine`, `unregisterSpine` and `renderDebug` calls, the keys of
the registration map stay duplicate-free, so the map holds at most one
entry (one bundle of drawing surfaces) per spine object. -/
theorem at_most_one_registration (ops : List Op) (s : RendererState)
    (h : (mapKeys s.registeredSpines).Nodup) :
    (mapKeys (runOps s ops).registeredSpines).Nodup := by
  induction ops generalizing s with
  | nil => exact h
  | cons op rest ih =>
      cases op with
      | register sp => exact ih _ (nodup_keys_registerSpine s sp h)
      | unregister sp => exact ih _ (nodup_keys_unregisterSpine s sp h)
      | render sp => exact ih _ (nodup_keys_renderDebug s sp h)

/-- Witness for C7 at a concrete call sequence. -/
theorem at_most_one_registration_witness :
    (mapKeys initialRenderer.registeredSpines).Nodup ∧
    (mapKeys (runOps initialRenderer
        [Op.register spineA, Op.render spineA, Op.register spineA,
         Op.unregister spineA, Op.render spineA]).registeredSpines).Nodup :=
  ⟨by decide,
   at_most_one_registration
     [Op.register spineA, Op.render spineA, Op.register spineA,
      Op.unregister spineA, Op.render spineA] initialRenderer (by decide)⟩

/-! ### Claim C8: renderDebug is a pure read of the pose -/

/-- C8: `renderDebug` does not modify the skeleton pose state or any other
pose data carried by the spine: the spine object after the call has the
same skeleton (bones, slots, attachments), bounds and scale; only its
display children can change (when first-render registration attaches the
debug container).  External attachment methods are modelled as pure reads
per the spec (pose data is read-only from this module's perspective). -/
theorem renderDebug_preserves_pose (s : RendererState) (spine : Spine) :
    (renderDebug s spine).2.1.skeleton = spine.skeleton ∧
    (renderDebug s spine).2.1.bounds = spine.bounds ∧
    (renderDebug s spine).2.1.scaleX = spine.scaleX ∧
    (renderDebug s spine).2.1.scaleY = spine.scaleY ∧
    (renderDebug s spine).2.1.id = spine.id := by
  unfold renderDebug
  by_cases hh : mapHas s.registeredSpines spine.id = true
  · rw [if_pos hh]
    dsimp only
    cases hg : mapGet s.registeredSpines spine.id with
    | none => exact ⟨rfl, rfl, rfl, rfl, rfl⟩
    | some ddo =>
        simp only [hg]
        split
        · exact ⟨rfl, rfl, rfl, rfl, rfl⟩
        · exact ⟨rfl, rfl, rfl, rfl, rfl⟩
  · rw [if_neg hh]
    dsimp only
    cases hg : mapGet (registerSpine s spine).1.registeredSpines
        (registerSpine s spine).2.id with
    | none => simp only [hg]; exact ⟨rfl, rfl, rfl, rfl, rfl⟩
    | some ddo =>
        simp only [hg]
        split
        · exact ⟨rfl, rfl, rfl, rfl, rfl⟩
        · exact ⟨rfl, rfl, rfl, rfl, rfl⟩

/-! ### Claim C10: which bones get a graphic -/

theorem sq_add_sq_eq_zero_iff (x y : ℚ) : x ^ 2 + y ^ 2 = 0 ↔ x = 0 ∧ y = 0 := by
  constructor
  · intro h0
    constructor
    · have hx : x ^ 2 = 0 := by nlinarith [sq_nonneg x, sq_nonneg y]
      exact pow_eq_zero_iff two_ne_zero |>.mp hx
    · have hy : y ^ 2 = 0 := by nlinarith [sq_nonneg x, sq_nonneg y]
      exact pow_eq_zero_iff two_ne_zero |>.mp hy
  · rintro ⟨rfl, rfl⟩
    simp

theorem bonesLoop_map (skX skY : ℚ) (bones : List Bone) (acc : List BoneGp) (nid : ℕ) :
    ((bonesLoop skX skY bones acc nid).1).map (fun g => (g.x, g.y)) =
      acc.map (fun g => (g.x, g.y)) ++
        (bones.filter (boneKept skX skY)).map
          (fun bone => (skX + bone.matrix.tx, skY + bone.matrix.ty)) := by
  induction bones generalizing acc nid with
  | nil => simp [bonesLoop]
  | cons bone rest ih =>
      by_cases h1 : bone.data.name = "root" ∨ bone.data.hasParent = false
      · have hk : boneKept skX skY bone = false := by simp [boneKept, h1]
        simp [bonesLoop, h1, hk, ih]
      · have hpts : ((skX + bone.matrix.tx, skY + bone.matrix.ty) =
            ((skX + bone.data.length * bone.matrix.a + bone.matrix.tx,
              skY + bone.data.length * bone.matrix.b + bone.matrix.ty) : ℚ × ℚ)) ↔
            (bone.data.length * bone.matrix.a = 0 ∧
              bone.data.length * bone.matrix.b = 0) := by
          rw [Prod.mk.injEq]
          constructor
          · rintro ⟨u, v⟩
            constructor <;> linarith
          · rintro ⟨u, v⟩
            constructor <;> linarith
        by_cases h2 : bone.data.length * bone.matrix.a = 0 ∧
            bone.data.length * bone.matrix.b = 0
        · have hcond : (bone.data.length * bone.matrix.a) ^ 2 +
              (bone.data.length * bone.matrix.b) ^ 2 = 0 :=
            (sq_add_sq_eq_zero_iff _ _).mpr h2
          have hk : boneKept skX skY bone = false := by
            simp only [boneKept, decide_eq_false_iff_not]
            intro hcon
            exact hcon.2 (hpts.mpr h2)
          simp [bonesLoop, h1, hcond, hk, ih]
        · have hcond : ¬ ((bone.data.length * bone.matrix.a) ^ 2 +
              (bone.data.length * bone.matrix.b) ^ 2 = 0) :=
            fun hc => h2 ((sq_add_sq_eq_zero_iff _ _).mp hc)
          have hk : boneKept skX skY bone = true := by
            simp only [boneKept, decide_eq_true_eq]
            exact ⟨h1, fun hcon => h2 (hpts.mp hcon)⟩
          simp [bonesLoop, h1, hcond, hk, ih]

/-- C10: when drawing bones, a bone graphic child is created exactly for
the bones that are neither named "root" nor parentless and whose segment
has nonzero length (start point distinct from end point); skipped bones
add no child; and the skeleton-origin "X" marker is recorded on the
`skeletonXY` surface regardless. -/
theorem drawBones_child_iff_qualifying (cfg : DrawSettings) (spine : Spine)
    (ddo : DebugDisplayObjects) (lw : ℚ) (nid : ℕ) :
    ((drawBonesFunc cfg spine ddo lw nid).1.bonesChildren.map fun g => (g.x, g.y)) =
      ddo.bonesChildren.map (fun g => (g.x, g.y)) ++
        (spine.skeleton.bones.filter
            (boneKept spine.skeleton.x spine.skeleton.y)).map
          (fun bone =>
            (spine.skeleton.x + bone.matrix.tx, spine.skeleton.y + bone.matrix.ty)) ∧
    (drawBonesFunc cfg spine ddo lw nid).1.skeletonXY.cmds =
      ddo.skeletonXY.cmds ++ skeletonXYCmds cfg spine.skeleton lw :=
  ⟨bonesLoop_map spine.skeleton.x spine.skeleton.y spine.skeleton.bones
      ddo.bonesChildren nid, rfl⟩

/-! ### Claim C4: the polygon vertex-count check -/

theorem boundingBox_two_vertex_polygon_no_error :
    spineTwoVert.bounds.polygons = [[0, 0, 1, 0]] ∧
    ([(0 : ℚ), 0, 1, 0].length = 2 * 2) ∧
    (drawBoundingBoxesFunc (settings initialRenderer) spineTwoVert (freshDDO 0) 1).2 =
      none :=
  ⟨rfl, rfl, rfl⟩

theorem bbPolysLoop_err (cfg : DrawSettings) (lw : ℚ) (ps : List (List ℚ))
    (d : DebugDisplayObjects) :
    (bbPolysLoop cfg lw d ps).2 =
      if ∃ p ∈ ps, p.length < 3 then some (JsErr.thrown polygonErrMsg) else none := by
  induction ps generalizing d with
  | nil => simp [bbPolysLoop]
  | cons p rest ih =>
      by_cases hp : p.length < 3
      · simp [bbPolysLoop, bbDrawPolygon, hp]
      · simp [bbPolysLoop, bbDrawPolygon, hp, ih]

/-- C4 amended: during bounding-box drawing an `Error` with message
"Polygon must contain at least 3 vertices" is thrown if and only if some
bounding-box polygon has a flat coordinate array of fewer than 3 entries
(i.e. at most one vertex, since each vertex contributes two entries);
polygons with 2 vertices (4 entries) raise no error. -/
theorem boundingBoxes_error_characterization (cfg : DrawSettings) (spine : Spine)
    (ddo : DebugDisplayObjects) (lw : ℚ) :
    (drawBoundingBoxesFunc cfg spine ddo lw).2 =
      if ∃ p ∈ spine.bounds.polygons, p.length < 3 then
        some (JsErr.thrown polygonErrMsg)
      else none := by
  unfold drawBoundingBoxesFunc
  exact bbPolysLoop_err cfg lw spine.bounds.polygons _

/-! ### Claim C9: drawDebug is dead configuration -/

/-- C9: the public `drawDebug` field has no effect on any operation: for
any renderer state and any value of `drawDebug`, `registerSpine`,
`unregisterSpine` and `renderDebug` produce the same warnings, map,
destroyed set, spine and error as with any other value — the output state
merely carries the field through unchanged.  No code path reads it. -/
theorem drawDebug_has_no_effect (s : RendererState) (b : Bool) (spine : Spine) :
    registerSpine { s with drawDebug := b } spine =
      ({ (registerSpine s spine).1 with drawDebug := b },
       (registerSpine s spine).2) ∧
    unregisterSpine { s with drawDebug := b } spine =
      ({ (unregisterSpine s spine).1 with drawDebug := b },
       (unregisterSpine s spine).2) ∧
    renderDebug { s with drawDebug := b } spine =
      ({ (renderDebug s spine).1 with drawDebug := b },
       (renderDebug s spine).2.1, (renderDebug s spine).2.2) := by
  refine ⟨rfl, ?_, ?_⟩
  · unfold unregisterSpine
    dsimp only
    cases hg : mapGet s.registeredSpines spine.id with
    | none => simp only [hg]
    | some ddo => simp only [hg]
  · unfold renderDebug
    dsimp only [settings, registerSpine]
    by_cases hh : mapHas s.registeredSpines spine.id = true
    · simp only [if_pos hh]
      cases hg : mapGet s.registeredSpines spine.id with
      | none => simp only [hg]
      | some ddo =>
          simp only [hg]
          split <;> rfl
    · simp only [if_neg hh]
      cases hg : mapGet (mapSet s.registeredSpines spine.id (freshDDO s.nextId))
          spine.id with
      | none => simp only [hg]
      | some ddo =>
          simp only [hg]
          split <;> rfl

/-! ### Supporting lemmas for the per-frame structure of renderDebug -/

theorem bbDrawPolygon_err (cfg : DrawSettings) (lw : ℚ) (d : DebugDisplayObjects)
    (poly : List ℚ) (count : ℕ) :
    (bbDrawPolygon cfg lw d poly count).2 =
      if count < 3 then some (JsErr.thrown polygonErrMsg) else none := by
  unfold bbDrawPolygon
  split <;> rfl

theorem bbDrawPolygon_preserves (cfg : DrawSettings) (lw : ℚ) (d : DebugDisplayObjects)
    (poly : List ℚ) (count : ℕ) :
    (bbDrawPolygon cfg lw d poly count).1.bonesChildren = d.bonesChildren ∧
    (bbDrawPolygon cfg lw d poly count).1.skeletonXY = d.skeletonXY ∧
    (bbDrawPolygon cfg lw d poly count).1.regionAttachmentsShape = d.regionAttachmentsShape ∧
    (bbDrawPolygon cfg lw d poly count).1.meshTrianglesLine = d.meshTrianglesLine ∧
    (bbDrawPolygon cfg lw d poly count).1.meshHullLine = d.meshHullLine ∧
    (bbDrawPolygon cfg lw d poly count).1.clippingPolygon = d.clippingPolygon ∧
    (bbDrawPolygon cfg lw d poly count).1.pathsCurve = d.pathsCurve ∧
    (bbDrawPolygon cfg lw d poly count).1.pathsLine = d.pathsLine ∧
    (bbDrawPolygon cfg lw d poly count).1.boundingBoxesRect = d.boundingBoxesRect := by
  unfold bbDrawPolygon
  split <;> exact ⟨rfl, rfl, rfl, rfl, rfl, rfl, rfl, rfl, rfl⟩

theorem bbPolysLoop_preserves (cfg : DrawSettings) (lw : ℚ) (ps : List (List ℚ)) :
    ∀ d : DebugDisplayObjects,
      (bbPolysLoop cfg lw d ps).1.bonesChildren = d.bonesChildren ∧
      (bbPolysLoop cfg lw d ps).1.skeletonXY = d.skeletonXY ∧
      (bbPolysLoop cfg lw d ps).1.regionAttachmentsShape = d.regionAttachmentsShape ∧
      (bbPolysLoop cfg lw d ps).1.meshTrianglesLine = d.meshTrianglesLine ∧
      (bbPolysLoop cfg lw d ps).1.meshHullLine = d.meshHullLine ∧
      (bbPolysLoop cfg lw d ps).1.clippingPolygon = d.clippingPolygon ∧
      (bbPolysLoop cfg lw d ps).1.pathsCurve = d.pathsCurve ∧
      (bbPolysLoop cfg lw d ps).1.pathsLine = d.pathsLine ∧
      (bbPolysLoop cfg lw d ps).1.boundingBoxesRect = d.boundingBoxesRect := by
  induction ps with
  | nil => intro d; exact ⟨rfl, rfl, rfl, rfl, rfl, rfl, rfl, rfl, rfl⟩
  | cons p rest ih =>
      intro d
      obtain ⟨a1, a2, a3, a4, a5, a6, a7, a8, a9⟩ :=
        bbDrawPolygon_preserves cfg lw d p p.length
      unfold bbPolysLoop
      dsimp only
      rw [bbDrawPolygon_err]
      by_cases hc : p.length < 3
      · simp only [if_pos hc]
        exact ⟨a1, a2, a3, a4, a5, a6, a7, a8, a9⟩
      · simp only [if_neg hc]
        obtain ⟨b1, b2, b3, b4, b5, b6, b7, b8, b9⟩ :=
          ih (bbDrawPolygon cfg lw d p p.length).1
        exact ⟨b1.trans a1, b2.trans a2, b3.trans a3, b4.trans a4, b5.trans a5,
          b6.trans a6, b7.trans a7, b8.trans a8, b9.trans a9⟩

theorem bbDrawPolygon_circle_cmds (cfg : DrawSettings) (lw : ℚ)
    (d : DebugDisplayObjects) (poly : List ℚ) (count : ℕ) :
    (bbDrawPolygon cfg lw d poly count).1.boundingBoxesCircle.cmds =
      d.boundingBoxesCircle.cmds ++
        (if count < 3 then [] else (bbVertexLoop cfg poly (lw * 2) 0).1) := by
  unfold bbDrawPolygon
  split <;> simp

theorem bbDrawPolygon_polygon_cmds (cfg : DrawSettings) (lw : ℚ)
    (d : DebugDisplayObjects) (poly : List ℚ) (count : ℕ) :
    (bbDrawPolygon cfg lw d poly count).1.boundingBoxesPolygon.cmds =
      d.boundingBoxesPolygon.cmds ++
        Cmd.lineStyle lw cfg.boundingBoxesPolygonColor 1 ::
          Cmd.beginFill cfg.boundingBoxesPolygonColor (1 / 10) ::
            (if count < 3 then []
             else [Cmd.drawPoly (bbVertexLoop cfg poly (lw * 2) 0).2, Cmd.endFill]) := by
  unfold bbDrawPolygon
  split <;> simp

theorem bbPolysLoop_circle (cfg : DrawSettings) (lw : ℚ) (ps : List (List ℚ)) :
    ∀ d : DebugDisplayObjects,
      (bbPolysLoop cfg lw d ps).1.boundingBoxesCircle.cmds =
        d.boundingBoxesCircle.cmds ++ bbCirclesCmds cfg lw ps := by
  induction ps with
  | nil => intro d; simp [bbPolysLoop, bbCirclesCmds]
  | cons p rest ih =>
      intro d
      unfold bbPolysLoop
      dsimp only
      rw [bbDrawPolygon_err]
      by_cases hc : p.length < 3
      · simp only [if_pos hc]
        rw [bbDrawPolygon_circle_cmds]
        simp [bbCirclesCmds, hc]
      · simp only [if_neg hc]
        rw [ih (bbDrawPolygon cfg lw d p p.length).1, bbDrawPolygon_circle_cmds]
        simp [bbCirclesCmds, hc]

theorem bbPolysLoop_polygon (cfg : DrawSettings) (lw : ℚ) (ps : List (List ℚ)) :
    ∀ d : DebugDisplayObjects,
      (bbPolysLoop cfg lw d ps).1.boundingBoxesPolygon.cmds =
        d.boundingBoxesPolygon.cmds ++ bbPolygonCmds cfg lw ps := by
  induction ps with
  | nil => intro d; simp [bbPolysLoop, bbPolygonCmds]
  | cons p rest ih =>
      intro d
      unfold bbPolysLoop
      dsimp only
      rw [bbDrawPolygon_err]
      by_cases hc : p.length < 3
      · simp only [if_pos hc]
        rw [bbDrawPolygon_polygon_cmds]
        simp [bbPolygonCmds, hc]
      · simp only [if_neg hc]
        rw [ih (bbDrawPolygon cfg lw d p p.length).1, bbDrawPolygon_polygon_cmds]
        simp [bbPolygonCmds, hc]

theorem drawBB_fst_bonesChildren (cfg : DrawSettings) (sp : Spine)
    (d : DebugDisplayObjects) (lw : ℚ) :
    (drawBoundingBoxesFunc cfg sp d lw).1.bonesChildren = d.bonesChildren := by
  unfold drawBoundingBoxesFunc
  exact (bbPolysLoop_preserves cfg lw sp.bounds.polygons _).1

theorem drawBB_fst_skeletonXY (cfg : DrawSettings) (sp : Spine)
    (d : DebugDisplayObjects) (lw : ℚ) :
    (drawBoundingBoxesFunc cfg sp d lw).1.skeletonXY = d.skeletonXY := by
  unfold drawBoundingBoxesFunc
  exact (bbPolysLoop_preserves cfg lw sp.bounds.polygons _).2.1

theorem drawBB_fst_regionAttachmentsShape (cfg : DrawSettings) (sp : Spine)
    (d : DebugDisplayObjects) (lw : ℚ) :
    (drawBoundingBoxesFunc cfg sp d lw).1.regionAttachmentsShape =
      d.regionAttachmentsShape := by
  unfold drawBoundingBoxesFunc
  exact (bbPolysLoop_preserves cfg lw sp.bounds.polygons _).2.2.1

theorem drawBB_fst_meshTrianglesLine (cfg : DrawSettings) (sp : Spine)
    (d : DebugDisplayObjects) (lw : ℚ) :
    (drawBoundingBoxesFunc cfg sp d lw).1.meshTrianglesLine = d.meshTrianglesLine := by
  unfold drawBoundingBoxesFunc
  exact (bbPolysLoop_preserves cfg lw sp.bounds.polygons _).2.2.2.1

theorem drawBB_fst_meshHullLine (cfg : DrawSettings) (sp : Spine)
    (d : DebugDisplayObjects) (lw : ℚ) :
    (drawBoundingBoxesFunc cfg sp d lw).1.meshHullLine = d.meshHullLine := by
  unfold drawBoundingBoxesFunc
  exact (bbPolysLoop_preserves cfg lw sp.bounds.polygons _).2.2.2.2.1

theorem drawBB_fst_clippingPolygon (cfg : DrawSettings) (sp : Spine)
    (d : DebugDisplayObjects) (lw : ℚ) :
    (drawBoundingBoxesFunc cfg sp d lw).1.clippingPolygon = d.clippingPolygon := by
  unfold drawBoundingBoxesFunc
  exact (bbPolysLoop_preserves cfg lw sp.bounds.polygons _).2.2.2.2.2.1

theorem drawBB_fst_pathsCurve (cfg : DrawSettings) (sp : Spine)
    (d : DebugDisplayObjects) (lw : ℚ) :
    (drawBoundingBoxesFunc cfg sp d lw).1.pathsCurve = d.pathsCurve := by
  unfold drawBoundingBoxesFunc
  exact (bbPolysLoop_preserves cfg lw sp.bounds.polygons _).2.2.2.2.2.2.1

theorem drawBB_fst_pathsLine (cfg : DrawSettings) (sp : Spine)
    (d : DebugDisplayObjects) (lw : ℚ) :
    (drawBoundingBoxesFunc cfg sp d lw).1.pathsLine = d.pathsLine := by
  unfold drawBoundingBoxesFunc
  exact (bbPolysLoop_preserves cfg lw sp.bounds.polygons _).2.2.2.2.2.2.2.1

theorem drawBB_fst_rect (cfg : DrawSettings) (sp : Spine)
    (d : DebugDisplayObjects) (lw : ℚ) :
    (drawBoundingBoxesFunc cfg sp d lw).1.boundingBoxesRect.cmds =
      d.boundingBoxesRect.cmds ++
        [Cmd.lineStyle lw cfg.boundingBoxesRectColor 5,
         Cmd.drawRect sp.bounds.minX sp.bounds.minY (sp.bounds.maxX - sp.bounds.minX)
           (sp.bounds.maxY - sp.bounds.minY)] := by
  unfold drawBoundingBoxesFunc
  rw [congrArg Graphics.cmds
    (bbPolysLoop_preserves cfg lw sp.bounds.polygons _).2.2.2.2.2.2.2.2]

theorem drawBB_fst_circle (cfg : DrawSettings) (sp : Spine)
    (d : DebugDisplayObjects) (lw : ℚ) :
    (drawBoundingBoxesFunc cfg sp d lw).1.boundingBoxesCircle.cmds =
      d.boundingBoxesCircle.cmds ++ bbCirclesCmds cfg lw sp.bounds.polygons := by
  unfold drawBoundingBoxesFunc
  rw [bbPolysLoop_circle cfg lw sp.bounds.polygons]

theorem drawBB_fst_polygon (cfg : DrawSettings) (sp : Spine)
    (d : DebugDisplayObjects) (lw : ℚ) :
    (drawBoundingBoxesFunc cfg sp d lw).1.boundingBoxesPolygon.cmds =
      d.boundingBoxesPolygon.cmds ++ bbPolygonCmds cfg lw sp.bounds.polygons := by
  unfold drawBoundingBoxesFunc
  rw [bbPolysLoop_polygon cfg lw sp.bounds.polygons]

theorem meshCmds_hull_nil (cfg : DrawSettings) (slots : List Slot)
    (h : cfg.drawMeshHull = false) : (meshCmds cfg slots).1 = [] := by
  induction slots with
  | nil => simp [meshCmds]
  | cons slot rest ih =>
      by_cases hb : slot.boneActive = false
      · simp [meshCmds, hb, ih]
      · cases ha : slot.attachment with
        | none => simp [meshCmds, hb, ha, ih]
        | some att =>
            cases att <;> simp [meshCmds, hb, ha, h, ih]

theorem meshCmds_tri_nil (cfg : DrawSettings) (slots : List Slot)
    (h : cfg.drawMeshTriangles = false) : (meshCmds cfg slots).2 = [] := by
  induction slots with
  | nil => simp [meshCmds]
  | cons slot rest ih =>
      by_cases hb : slot.boneActive = false
      · simp [meshCmds, hb, ih]
      · cases ha : slot.attachment with
        | none => simp [meshCmds, hb, ha, ih]
        | some att =>
            cases att <;> simp [meshCmds, hb, ha, h, ih]

theorem drawBB_snd (cfg : DrawSettings) (sp : Spine) (d : DebugDisplayObjects) (lw : ℚ)
    (h : ¬ ∃ p ∈ sp.bounds.polygons, p.length < 3) :
    (drawBoundingBoxesFunc cfg sp d lw).2 = none := by
  unfold drawBoundingBoxesFunc
  rw [bbPolysLoop_err]
  exact if_neg h

/-- C3: for a registered spine, `renderDebug` throws no error (given no
degenerate bounding-box polygon), first clears the prior frame (it
destroys every child of the bones container, and every surface of the
updated entry carries exactly the commands of a fresh draw, independent of
the previous traces), and each visual category is drawn if and only if its
toggle is on: each surface equals the result of its drawing pass on empty
surfaces when its toggle is `true` and is empty otherwise (the mesh pass
runs under `drawMeshHull ∨ drawMeshTriangles`, and the final two conjuncts
record that its hull and triangle geometry are themselves gated by their
own toggles). -/
theorem renderDebug_clears_then_draws_by_toggles
    (s : RendererState) (spine : Spine) (ddo : DebugDisplayObjects)
    (hreg : mapGet s.registeredSpines spine.id = some ddo)
    (hpoly : ∀ p ∈ spine.bounds.polygons, 3 ≤ p.length) :
    ∃ d : DebugDisplayObjects,
      (renderDebug s spine).2.2 = none ∧
      mapGet (renderDebug s spine).1.registeredSpines spine.id = some d ∧
      (∀ i ∈ ddo.bonesChildren.map BoneGp.id, i ∈ (renderDebug s spine).1.destroyed) ∧
      d.bonesChildren =
        (if s.drawBones then
          (drawBonesFunc (settings s) spine (freshDDO 0)
            (s.lineWidth / jsScale spine) s.nextId).1.bonesChildren
         else []) ∧
      d.skeletonXY.cmds =
        (if s.drawBones then
          (drawBonesFunc (settings s) spine (freshDDO 0)
            (s.lineWidth / jsScale spine) s.nextId).1.skeletonXY.cmds
         else []) ∧
      d.pathsCurve.cmds =
        (if s.drawPaths then
          (drawPathsFunc (settings s) spine (freshDDO 0)
            (s.lineWidth / jsScale spine)).pathsCurve.cmds
         else []) ∧
      d.pathsLine.cmds =
        (if s.drawPaths then
          (drawPathsFunc (settings s) spine (freshDDO 0)
            (s.lineWidth / jsScale spine)).pathsLine.cmds
         else []) ∧
      d.boundingBoxesRect.cmds =
        (if s.drawBoundingBoxes then
          (drawBoundingBoxesFunc (settings s) spine (freshDDO 0)
            (s.lineWidth / jsScale spine)).1.boundingBoxesRect.cmds
         else []) ∧
      d.boundingBoxesCircle.cmds =
        (if s.drawBoundingBoxes then
          (drawBoundingBoxesFunc (settings s) spine (freshDDO 0)
            (s.lineWidth / jsScale spine)).1.boundingBoxesCircle.cmds
         else []) ∧
      d.boundingBoxesPolygon.cmds =
        (if s.drawBoundingBoxes then
          (drawBoundingBoxesFunc (settings s) spine (freshDDO 0)
            (s.lineWidth / jsScale spine)).1.boundingBoxesPolygon.cmds
         else []) ∧
      d.clippingPolygon.cmds =
        (if s.drawClipping then
          (drawClippingFunc (settings s) spine (freshDDO 0)
            (s.lineWidth / jsScale spine)).clippingPolygon.cmds
         else []) ∧
      d.meshHullLine.cmds =
        (if s.drawMeshHull ∨ s.drawMeshTriangles then
          (drawMeshHullAndMeshTriangles (settings s) spine (freshDDO 0)
            (s.lineWidth / jsScale spine)).meshHullLine.cmds
         else []) ∧
      d.meshTrianglesLine.cmds =
        (if s.drawMeshHull ∨ s.drawMeshTriangles then
          (drawMeshHullAndMeshTriangles (settings s) spine (freshDDO 0)
            (s.lineWidth / jsScale spine)).meshTrianglesLine.cmds
         else []) ∧
      d.regionAttachmentsShape.cmds =
        (if s.drawRegionAttachments then
          (drawRegionAttachmentsFunc (settings s) spine (freshDDO 0)
            (s.lineWidth / jsScale spine)).regionAttachmentsShape.cmds
         else []) ∧
      (s.drawMeshHull = false → geomCmds d.meshHullLine.cmds = []) ∧
      (s.drawMeshTriangles = false → geomCmds d.meshTrianglesLine.cmds = []) := by
  have hhas : mapHas s.registeredSpines spine.id = true := mapHas_of_mapGet_eq_some hreg
  have hnex : ¬ ∃ p ∈ spine.bounds.polygons, p.length < 3 := by
    rintro ⟨p, hp, hlt⟩
    exact Nat.not_lt.mpr (hpoly p hp) hlt
  unfold renderDebug
  rw [if_pos hhas]
  dsimp only
  rw [hreg]
  dsimp only
  split
  · rename_i ddoE e heq
    exfalso
    have h2 := congrArg Prod.snd heq
    rw [apply_ite Prod.snd] at h2
    rw [drawBB_snd _ _ _ _ hnex] at h2
    simp at h2
  · rename_i ddo1 heq
    have hfst := congrArg Prod.fst heq
    rw [apply_ite Prod.fst] at hfst
    dsimp only at hfst
    refine ⟨_, rfl, mapGet_mapSet_self _ _ _, ?_, ?_, ?_, ?_, ?_, ?_, ?_, ?_, ?_, ?_, ?_, ?_, ?_, ?_⟩
    · intro i hi
      exact List.mem_append_right _ hi
    all_goals rw [← hfst]
    all_goals
      simp only [drawRegionAttachmentsFunc, drawMeshHullAndMeshTriangles,
        drawClippingFunc, drawPathsFunc, drawBonesFunc, clearSurfaces, freshDDO,
        drawBB_fst_bonesChildren, drawBB_fst_skeletonXY,
        drawBB_fst_regionAttachmentsShape, drawBB_fst_meshTrianglesLine,
        drawBB_fst_meshHullLine, drawBB_fst_clippingPolygon, drawBB_fst_pathsCurve,
        drawBB_fst_pathsLine, drawBB_fst_rect, drawBB_fst_circle, drawBB_fst_polygon,
        apply_ite (fun x : DebugDisplayObjects => x.bonesChildren),
        apply_ite (fun x : DebugDisplayObjects => x.skeletonXY),
        apply_ite (fun x : DebugDisplayObjects => x.regionAttachmentsShape),
        apply_ite (fun x : DebugDisplayObjects => x.meshTrianglesLine),
        apply_ite (fun x : DebugDisplayObjects => x.meshHullLine),
        apply_ite (fun x : DebugDisplayObjects => x.clippingPolygon),
        apply_ite (fun x : DebugDisplayObjects => x.pathsCurve),
        apply_ite (fun x : DebugDisplayObjects => x.pathsLine),
        apply_ite (fun x : DebugDisplayObjects => x.boundingBoxesRect),
        apply_ite (fun x : DebugDisplayObjects => x.boundingBoxesCircle),
        apply_ite (fun x : DebugDisplayObjects => x.boundingBoxesPolygon),
        apply_ite (fun x : DebugDisplayObjects × ℕ => x.1),
        apply_ite (fun x : DebugDisplayObjects × Option JsErr => x.1),
        apply_ite (fun g : Graphics => g.cmds),
        ite_self, List.nil_append, List.append_nil]
    all_goals intro hf
    all_goals try rw [meshCmds_hull_nil (settings s) spine.skeleton.slots
      (by simpa [settings] using hf)]
    all_goals try rw [meshCmds_tri_nil (settings s) spine.skeleton.slots
      (by simpa [settings] using hf)]
    all_goals simp [apply_ite geomCmds, geomCmds, Cmd.isStyle]

theorem renderDebug_clears_then_draws_by_toggles_witness :
    mapGet c3State.registeredSpines spineB.id = some (freshDDO 0) ∧
    (∀ p ∈ spineB.bounds.polygons, 3 ≤ p.length) ∧
    (∃ d : DebugDisplayObjects,
      (renderDebug c3State spineB).2.2 = none ∧
      mapGet (renderDebug c3State spineB).1.registeredSpines spineB.id = some d ∧
      (∀ i ∈ (freshDDO 0).bonesChildren.map BoneGp.id,
        i ∈ (renderDebug c3State spineB).1.destroyed) ∧
      d.bonesChildren =
        (if c3State.drawBones then
          (drawBonesFunc (settings c3State) spineB (freshDDO 0)
            (c3State.lineWidth / jsScale spineB) c3State.nextId).1.bonesChildren
         else []) ∧
      d.skeletonXY.cmds =
        (if c3State.drawBones then
          (drawBonesFunc (settings c3State) spineB (freshDDO 0)
            (c3State.lineWidth / jsScale spineB) c3State.nextId).1.skeletonXY.cmds
         else []) ∧
      d.pathsCurve.cmds =
        (if c3State.drawPaths then
          (drawPathsFunc (settings c3State) spineB (freshDDO 0)
            (c3State.lineWidth / jsScale spineB)).pathsCurve.cmds
         else []) ∧
      d.pathsLine.cmds =
        (if c3State.drawPaths then
          (drawPathsFunc (settings c3State) spineB (freshDDO 0)
            (c3State.lineWidth / jsScale spineB)).pathsLine.cmds
         else []) ∧
      d.boundingBoxesRect.cmds =
        (if c3State.drawBoundingBoxes then
          (drawBoundingBoxesFunc (settings c3State) spineB (freshDDO 0)
            (c3State.lineWidth / jsScale spineB)).1.boundingBoxesRect.cmds
         else []) ∧
      d.boundingBoxesCircle.cmds =
        (if c3State.drawBoundingBoxes then
          (drawBoundingBoxesFunc (settings c3State) spineB (freshDDO 0)
            (c3State.lineWidth / jsScale spineB)).1.boundingBoxesCircle.cmds
         else []) ∧
      d.boundingBoxesPolygon.cmds =
        (if c3State.drawBoundingBoxes then
          (drawBoundingBoxesFunc (settings c3State) spineB (freshDDO 0)
            (c3State.lineWidth / jsScale spineB)).1.boundingBoxesPolygon.cmds
         else []) ∧
      d.clippingPolygon.cmds =
        (if c3State.drawClipping then
          (drawClippingFunc (settings c3State) spineB (freshDDO 0)
            (c3State.lineWidth / jsScale spineB)).clippingPolygon.cmds
         else []) ∧
      d.meshHullLine.cmds =
        (if c3State.drawMeshHull ∨ c3State.drawMeshTriangles then
          (drawMeshHullAndMeshTriangles (settings c3State) spineB (freshDDO 0)
            (c3State.lineWidth / jsScale spineB)).meshHullLine.cmds
         else []) ∧
      d.meshTrianglesLine.cmds =
        (if c3State.drawMeshHull ∨ c3State.drawMeshTriangles then
          (drawMeshHullAndMeshTriangles (settings c3State) spineB (freshDDO 0)
            (c3State.lineWidth / jsScale spineB)).meshTrianglesLine.cmds
         else []) ∧
      d.regionAttachmentsShape.cmds =
        (if c3State.drawRegionAttachments then
          (drawRegionAttachmentsFunc (settings c3State) spineB (freshDDO 0)
            (c3State.lineWidth / jsScale spineB)).regionAttachmentsShape.cmds
         else []) ∧
      (c3State.drawMeshHull = false → geomCmds d.meshHullLine.cmds = []) ∧
      (c3State.drawMeshTriangles = false → geomCmds d.meshTrianglesLine.cmds = [])) :=
  ⟨rfl, by decide,
   renderDebug_clears_then_draws_by_toggles c3State spineB (freshDDO 0) rfl (by decide)⟩

end SpineDebug
